import Mathlib

/-!
# Verification of the modal input-dispatch and turn-resolution core

Shallow embedding of `roguelike/bin/input_handlers.py`: the key-binding
tables, the turn resolver `EventHandler.handle_action`, the pointer-motion
handler `EventHandler.ev_mousemotion`, and the per-mode `ev_keydown`
translation of `MainGameEventHandler`, `GameOverEventHandler` and
`HistoryViewer`, together with the `HistoryViewer` construction and its
rendered message slice.

External collaborators that live outside this file of the repository
(`Action.perform` from actions.py, `Engine.handle_enemy_turns`,
`Engine.update_fov`, `MessageLog.add_message`, `GameMap.in_bounds`,
`color.impossible`) are abstracted: action execution is a parameter
returning a tagged outcome, the resolver's calls on the engine are
recorded as an ordered effect trace, the map bounds query is an opaque
boolean-valued field, and the impossible style is an opaque tag.
-/

namespace Roguelike

/-- Message style tags. `color.impossible` (from the external color module) is
modelled as an opaque distinguished tag. -/
inductive Color
  | impossible
  | white
  deriving DecidableEq, Repr

/-- One entry of `MessageLog.messages`: a text with a style tag. -/
structure Message where
  text : String
  fg : Color
  deriving DecidableEq, Repr

/-- The key symbols the source dispatches on (`tcod.event.KeySym`); `other`
stands for every key symbol not named in any binding table. -/
inductive KeySym
  | UP
  | DOWN
  | LEFT
  | RIGHT
  | HOME
  | END
  | PAGEUP
  | PAGEDOWN
  | PERIOD
  | ESCAPE
  | v
  | g
  | other (code : Nat)
  deriving DecidableEq, Repr

/-- The Action variants constructed by `MainGameEventHandler.ev_keydown`
(actions.py import list, lines 7-13). The player argument every constructor
receives in the source is the engine's sole player reference and carries no
data relevant to translation, so it is dropped. -/
inductive Action
  | BumpAction (dx dy : Int)
  | WaitAction
  | EscapeAction
  | PickupAction
  deriving DecidableEq, Repr

/-- `MOVE_KEYS` (input_handlers.py lines 20-30): key to (dx, dy). -/
def MOVE_KEYS : KeySym → Option (Int × Int)
  | .UP => some (0, -1)
  | .DOWN => some (0, 1)
  | .LEFT => some (-1, 0)
  | .RIGHT => some (1, 0)
  | .HOME => some (-1, -1)
  | .END => some (-1, 1)
  | .PAGEUP => some (1, -1)
  | .PAGEDOWN => some (1, 1)
  | _ => none

/-- `WAIT_KEYS` (lines 32-34). -/
def WAIT_KEYS : List KeySym := [KeySym.PERIOD]

/-- `CURSOR_Y_KEYS` (lines 102-107): key to signed cursor step. -/
def CURSOR_Y_KEYS : KeySym → Option Int
  | .UP => some (-1)
  | .DOWN => some 1
  | .PAGEUP => some (-10)
  | .PAGEDOWN => some 10
  | _ => none

/-- The engine's `event_handler` reference: which handler class is live,
together with the mutable per-instance state it carries. `HistoryViewer`
carries `log_length` and `cursor` (lines 112-115); the other handlers are
stateless beyond the engine reference. -/
inductive EventHandlerState
  | MainGameEventHandler
  | GameOverEventHandler
  | HistoryViewer (log_length : Int) (cursor : Int)
  | HelpViewer
  deriving DecidableEq, Repr

/-- The map collaborator: only its `in_bounds(x, y) -> bool` query is
consumed by this core (line 60), so it is kept as an opaque predicate. -/
structure GameMap where
  in_bounds : Int → Int → Bool

/-- The engine state this core reads and writes: `message_log.messages`,
`mouse_location`, `game_map`, and the live `event_handler`. -/
structure Engine where
  messages : List Message
  mouse_location : Int × Int
  game_map : GameMap
  event_handler : EventHandlerState

/-- Outcome of `action.perform()` (line 49): normal return, or an
`exceptions.Impossible` carrying its message `exc.args[0]`. -/
inductive PerformResult
  | success
  | impossible (msg : String)
  deriving DecidableEq, Repr

/-- The engine calls `handle_action` makes, recorded in order:
`message_log.add_message(text, fg)`, `handle_enemy_turns()`, `update_fov()`. -/
inductive Effect
  | AddMessage (text : String) (fg : Color)
  | HandleEnemyTurns
  | UpdateFov
  deriving DecidableEq, Repr

/-- `EventHandler.handle_action` (lines 43-57). `perform` abstracts the
externally defined `action.perform()`; the returned list is the ordered
trace of engine calls the resolver makes. -/
def EventHandler.handle_action (action : Option Action)
    (perform : Action → PerformResult) : Bool × List Effect :=
  match action with
  | none => (false, [])
  | some a =>
    match perform a with
    | .impossible msg => (false, [Effect.AddMessage msg Color.impossible])
    | .success => (true, [Effect.HandleEnemyTurns, Effect.UpdateFov])

/-- `EventHandler.ev_mousemotion` (lines 59-61): store the tile as
`mouse_location` exactly when `game_map.in_bounds` accepts it. -/
def EventHandler.ev_mousemotion (e : Engine) (x y : Int) : Engine :=
  if e.game_map.in_bounds x y then { e with mouse_location := (x, y) } else e

/-- `HistoryViewer.__init__` (lines 112-115): snapshot
`log_length = len(engine.message_log.messages)` and set
`cursor = log_length - 1`. -/
def HistoryViewer.make (e : Engine) : EventHandlerState :=
  let log_length : Int := e.messages.length
  EventHandlerState.HistoryViewer log_length (log_length - 1)

/-- `MainGameEventHandler.ev_keydown` (lines 71-92): the returned optional
Action together with the engine afterwards (the only mutation is the `v`
branch replacing `event_handler`, line 87). -/
def MainGameEventHandler.ev_keydown (e : Engine) (key : KeySym) :
    Option Action × Engine :=
  match MOVE_KEYS key with
  | some (dx, dy) => (some (Action.BumpAction dx dy), e)
  | none =>
    if WAIT_KEYS.contains key then
      (some Action.WaitAction, e)
    else if key = KeySym.ESCAPE then
      (some Action.EscapeAction, e)
    else if key = KeySym.v then
      (none, { e with event_handler := HistoryViewer.make e })
    else if key = KeySym.g then
      (some Action.PickupAction, e)
    else
      (none, e)

/-- What a keydown handler that may raise does: `GameOverEventHandler`
either raises `SystemExit` (line 99) or falls through returning `None`. -/
inductive KeydownOutcome
  | raiseSystemExit
  | returnAction (action : Option Action)
  deriving DecidableEq, Repr

/-- `GameOverEventHandler.ev_keydown` (lines 97-99): `SystemExit` on
escape, otherwise fall through (returns `None`, engine untouched). -/
def GameOverEventHandler.ev_keydown (key : KeySym) : KeydownOutcome :=
  if key = KeySym.ESCAPE then KeydownOutcome.raiseSystemExit
  else KeydownOutcome.returnAction none

/-- `HistoryViewer.ev_keydown` (lines 139-153). The source returns `None`
(first component); the second component is the engine's `event_handler`
afterwards: the viewer itself with its updated cursor, or
`MainGameEventHandler` on any unrecognized key. Note line 143 is the
expression statement `self.cursor - self.log_length - 1` whose value is
discarded, so that branch leaves the cursor unchanged, while line 145 does
assign `self.cursor = 0`. -/
def HistoryViewer.ev_keydown (log_length cursor : Int) (key : KeySym) :
    Option Action × EventHandlerState :=
  match CURSOR_Y_KEYS key with
  | some adjust =>
    if adjust < 0 ∧ cursor = 0 then
      (none, EventHandlerState.HistoryViewer log_length cursor)
    else if adjust > 0 ∧ cursor = log_length - 1 then
      (none, EventHandlerState.HistoryViewer log_length 0)
    else
      (none, EventHandlerState.HistoryViewer log_length
        (max 0 (min (cursor + adjust) (log_length - 1))))
  | none =>
    if key = KeySym.HOME then
      (none, EventHandlerState.HistoryViewer log_length 0)
    else if key = KeySym.END then
      (none, EventHandlerState.HistoryViewer log_length (log_length - 1))
    else
      (none, EventHandlerState.MainGameEventHandler)

/-- Python list slice `l[:k]` with a possibly negative bound `k`. -/
def pySliceTo {α : Type} (l : List α) (k : Int) : List α :=
  if k < 0 then l.take ((l.length : Int) + k).toNat else l.take k.toNat

/-- The message slice `HistoryViewer.on_render` passes to
`render_messages` (line 135): `self.engine.message_log.messages[: self.cursor + 1]`. -/
def HistoryViewer.renderedMessages (messages : List Message) (cursor : Int) :
    List Message :=
  pySliceTo messages (cursor + 1)

/-- Iterated `HistoryViewer.ev_keydown` over a key sequence, for as long as
the mode stays `HistoryViewer`; a transition away stops the run. -/
def HistoryViewer.runKeys : EventHandlerState → List KeySym → EventHandlerState
  | s, [] => s
  | EventHandlerState.HistoryViewer ll c, key :: ks =>
    HistoryViewer.runKeys (HistoryViewer.ev_keydown ll c key).2 ks
  | s, _ :: _ => s

/-- A concrete engine holding one message, for witness instantiations. -/
def sampleEngine1 : Engine :=
  { messages := [{ text := "Hello and welcome, adventurer!", fg := Color.white }]
    mouse_location := (0, 0)
    game_map := { in_bounds := fun x y => decide (0 ≤ x ∧ x < 10 ∧ 0 ≤ y ∧ y < 10) }
    event_handler := EventHandlerState.MainGameEventHandler }

/-- A concrete engine with an empty message log, for witness instantiations. -/
def sampleEngineEmpty : Engine :=
  { messages := []
    mouse_location := (0, 0)
    game_map := { in_bounds := fun x y => decide (0 ≤ x ∧ x < 10 ∧ 0 ≤ y ∧ y < 10) }
    event_handler := EventHandlerState.MainGameEventHandler }

/-- C2: an Action whose execution fails as Impossible makes the resolver
append exactly one message tagged with the impossible style, trigger no
enemy turn, recompute no visibility, and return false: its whole effect
trace is that single `AddMessage` and the returned flag is `false`. -/
theorem C2_impossible_action (a : Action) (perform : Action → PerformResult)
    (msg : String) (h : perform a = PerformResult.impossible msg) :
    EventHandler.handle_action (some a) perform =
      (false, [Effect.AddMessage msg Color.impossible]) := by
  simp [EventHandler.handle_action, h]

theorem C2_impossible_action_witness :
    EventHandler.handle_action (some Action.WaitAction)
      (fun _ => PerformResult.impossible "That way is blocked.") =
      (false, [Effect.AddMessage "That way is blocked." Color.impossible]) :=
  C2_impossible_action Action.WaitAction
    (fun _ => PerformResult.impossible "That way is blocked.")
    "That way is blocked." rfl

/-- C3: an Action whose execution succeeds makes the resolver trigger the
non-player actors' turns, then recompute the player's field of visibility,
in that order, and return true. -/
theorem C3_successful_action (a : Action) (perform : Action → PerformResult)
    (h : perform a = PerformResult.success) :
    EventHandler.handle_action (some a) perform =
      (true, [Effect.HandleEnemyTurns, Effect.UpdateFov]) := by
  simp [EventHandler.handle_action, h]

theorem C3_successful_action_witness :
    EventHandler.handle_action (some Action.WaitAction)
      (fun _ => PerformResult.success) =
      (true, [Effect.HandleEnemyTurns, Effect.UpdateFov]) :=
  C3_successful_action Action.WaitAction (fun _ => PerformResult.success) rfl

/-- C4: pressing `v` in MainPlay yields no Action and replaces the active
handler by a HistoryViewer whose `log_length` is the current message count
and whose `cursor` is `log_length - 1`. -/
theorem C4_view_history_key (e : Engine) :
    (MainGameEventHandler.ev_keydown e KeySym.v).1 = none ∧
    (MainGameEventHandler.ev_keydown e KeySym.v).2.event_handler =
      EventHandlerState.HistoryViewer (e.messages.length : Int)
        ((e.messages.length : Int) - 1) :=
  ⟨rfl, rfl⟩

/-- C6: each of the eight keys of `MOVE_KEYS` translates in MainPlay to a
Bump (move) Action carrying exactly the listed (dx, dy) pair, with the
engine — in particular its active handler — left unchanged. -/
theorem C6_move_keys (e : Engine) :
    MainGameEventHandler.ev_keydown e KeySym.UP =
      (some (Action.BumpAction 0 (-1)), e) ∧
    MainGameEventHandler.ev_keydown e KeySym.DOWN =
      (some (Action.BumpAction 0 1), e) ∧
    MainGameEventHandler.ev_keydown e KeySym.LEFT =
      (some (Action.BumpAction (-1) 0), e) ∧
    MainGameEventHandler.ev_keydown e KeySym.RIGHT =
      (some (Action.BumpAction 1 0), e) ∧
    MainGameEventHandler.ev_keydown e KeySym.HOME =
      (some (Action.BumpAction (-1) (-1)), e) ∧
    MainGameEventHandler.ev_keydown e KeySym.END =
      (some (Action.BumpAction (-1) 1), e) ∧
    MainGameEventHandler.ev_keydown e KeySym.PAGEUP =
      (some (Action.BumpAction 1 (-1)), e) ∧
    MainGameEventHandler.ev_keydown e KeySym.PAGEDOWN =
      (some (Action.BumpAction 1 1), e) :=
  ⟨rfl, rfl, rfl, rfl, rfl, rfl, rfl, rfl⟩

/-- C9: in GameOver, every key other than escape falls through with no
Action, no state change and no turn (resolving a missing Action produces
no effect and returns false), while escape raises `SystemExit` — a
terminal effect, not a returned Action. -/
theorem C9_game_over (key : KeySym) (perform : Action → PerformResult)
    (h : key ≠ KeySym.ESCAPE) :
    GameOverEventHandler.ev_keydown key = KeydownOutcome.returnAction none ∧
    GameOverEventHandler.ev_keydown KeySym.ESCAPE =
      KeydownOutcome.raiseSystemExit ∧
    EventHandler.handle_action none perform = (false, []) := by
  refine ⟨?_, rfl, rfl⟩
  simp [GameOverEventHandler.ev_keydown, h]

theorem C9_game_over_witness :
    GameOverEventHandler.ev_keydown KeySym.v = KeydownOutcome.returnAction none ∧
    GameOverEventHandler.ev_keydown KeySym.ESCAPE =
      KeydownOutcome.raiseSystemExit ∧
    EventHandler.handle_action none (fun _ => PerformResult.success) =
      (false, []) :=
  C9_game_over KeySym.v (fun _ => PerformResult.success) (by decide)

/-- C1 fails as stated: in HistoryReview with `log_length = 5` and
`cursor = 4 = log_length - 1`, the down key (step +1) sets the cursor to 0
(line 145 assigns `self.cursor = 0`), not to the clamp
`max 0 (min (4 + 1) (5 - 1)) = 4` the claim predicts. -/
theorem C1_counterexample :
    (HistoryViewer.ev_keydown 5 4 KeySym.DOWN).2 =
      EventHandlerState.HistoryViewer 5 0 ∧
    (HistoryViewer.ev_keydown 5 4 KeySym.DOWN).2 ≠
      EventHandlerState.HistoryViewer 5 (max 0 (min (4 + 1) (5 - 1))) := by
  constructor
  · rfl
  · decide

/-- C1 amended: for a recognized scroll key with step `adjust`, the cursor
becomes the clamp `max 0 (min (cursor + adjust) (log_length - 1))` in every
case except one: a positive step taken at `cursor = log_length - 1` wraps
the cursor to 0 (line 145). At the other extreme — a negative step at
cursor 0 — line 143 computes a value without assigning it, so the cursor
stays 0, which coincides with the clamp. -/
theorem C1_cursor_step (log_length cursor adjust : Int) (key : KeySym)
    (hlen : 0 < log_length) (hkey : CURSOR_Y_KEYS key = some adjust) :
    HistoryViewer.ev_keydown log_length cursor key =
      (none, EventHandlerState.HistoryViewer log_length
        (if 0 < adjust ∧ cursor = log_length - 1 then 0
         else max 0 (min (cursor + adjust) (log_length - 1)))) := by
  unfold HistoryViewer.ev_keydown
  rw [hkey]
  dsimp only
  by_cases h1 : adjust < 0 ∧ cursor = 0
  · simp only [h1, if_true, Prod.mk.injEq, EventHandlerState.HistoryViewer.injEq,
      true_and]
    rw [if_neg (by omega)]
    omega
  · rw [if_neg h1]
    by_cases h2 : adjust > 0 ∧ cursor = log_length - 1
    · rw [if_pos h2, if_pos (by omega)]
    · rw [if_neg h2, if_neg (by omega)]

theorem C1_cursor_step_witness :
    HistoryViewer.ev_keydown 5 2 KeySym.UP =
      (none, EventHandlerState.HistoryViewer 5 1) := by
  rw [C1_cursor_step 5 2 (-1) KeySym.UP (by decide) rfl]
  decide

/-- C5: with `log_length > 0` the invariant `0 ≤ cursor ≤ log_length - 1`
holds at activation (the snapshot construction puts the cursor at
`log_length - 1`) and is preserved by every key press handled while the
mode stays HistoryViewer: whenever a key press leaves the handler as a
HistoryViewer, its snapshot is untouched and its cursor is back in range. -/
theorem C5_cursor_invariant (e : Engine) (log_length cursor ll c : Int)
    (key : KeySym) (hlen : 0 < log_length) (h0 : 0 ≤ cursor)
    (h1 : cursor ≤ log_length - 1) :
    (0 < (e.messages.length : Int) →
      HistoryViewer.make e =
        EventHandlerState.HistoryViewer (e.messages.length : Int)
          ((e.messages.length : Int) - 1) ∧
      0 ≤ (e.messages.length : Int) - 1) ∧
    ((HistoryViewer.ev_keydown log_length cursor key).2 =
        EventHandlerState.HistoryViewer ll c →
      ll = log_length ∧ 0 ≤ c ∧ c ≤ ll - 1) := by
  constructor
  · intro he
    exact ⟨rfl, by omega⟩
  · intro hstep
    unfold HistoryViewer.ev_keydown at hstep
    rcases hk : CURSOR_Y_KEYS key with _ | adjust <;> rw [hk] at hstep <;>
      dsimp only at hstep
    · by_cases hh : key = KeySym.HOME
      · rw [if_pos hh] at hstep
        simp only [EventHandlerState.HistoryViewer.injEq] at hstep
        omega
      · rw [if_neg hh] at hstep
        by_cases he2 : key = KeySym.END
        · rw [if_pos he2] at hstep
          simp only [EventHandlerState.HistoryViewer.injEq] at hstep
          omega
        · rw [if_neg he2] at hstep
          simp at hstep
    · by_cases hc1 : adjust < 0 ∧ cursor = 0
      · rw [if_pos hc1] at hstep
        simp only [EventHandlerState.HistoryViewer.injEq] at hstep
        omega
      · rw [if_neg hc1] at hstep
        by_cases hc2 : adjust > 0 ∧ cursor = log_length - 1
        · rw [if_pos hc2] at hstep
          simp only [EventHandlerState.HistoryViewer.injEq] at hstep
          omega
        · rw [if_neg hc2] at hstep
          simp only [EventHandlerState.HistoryViewer.injEq] at hstep
          omega

theorem C5_cursor_invariant_witness :
    (0 < (sampleEngine1.messages.length : Int) →
      HistoryViewer.make sampleEngine1 =
        EventHandlerState.HistoryViewer (sampleEngine1.messages.length : Int)
          ((sampleEngine1.messages.length : Int) - 1) ∧
      0 ≤ (sampleEngine1.messages.length : Int) - 1) ∧
    ((HistoryViewer.ev_keydown 1 0 KeySym.DOWN).2 =
        EventHandlerState.HistoryViewer 1 0 →
      (1 : Int) = 1 ∧ (0 : Int) ≤ 0 ∧ (0 : Int) ≤ 1 - 1) :=
  C5_cursor_invariant sampleEngine1 1 0 1 0 KeySym.DOWN (by decide) (by decide)
    (by decide)

/-- C7: in HistoryReview the home key sets the cursor to 0, the end key
sets it to `log_length - 1`, and any key outside the scroll/home/end set
replaces the handler by MainGameEventHandler — a single transition for
that key press — while no branch ever returns an Action. -/
theorem C7_history_home_end_exit (log_length cursor : Int) (key : KeySym)
    (hscroll : CURSOR_Y_KEYS key = none) (hhome : key ≠ KeySym.HOME)
    (hend : key ≠ KeySym.END) :
    HistoryViewer.ev_keydown log_length cursor KeySym.HOME =
      (none, EventHandlerState.HistoryViewer log_length 0) ∧
    HistoryViewer.ev_keydown log_length cursor KeySym.END =
      (none, EventHandlerState.HistoryViewer log_length (log_length - 1)) ∧
    HistoryViewer.ev_keydown log_length cursor key =
      (none, EventHandlerState.MainGameEventHandler) := by
  refine ⟨rfl, rfl, ?_⟩
  unfold HistoryViewer.ev_keydown
  rw [hscroll, if_neg hhome, if_neg hend]

theorem C7_history_home_end_exit_witness :
    HistoryViewer.ev_keydown 5 2 KeySym.HOME =
      (none, EventHandlerState.HistoryViewer 5 0) ∧
    HistoryViewer.ev_keydown 5 2 KeySym.END =
      (none, EventHandlerState.HistoryViewer 5 (5 - 1)) ∧
    HistoryViewer.ev_keydown 5 2 KeySym.v =
      (none, EventHandlerState.MainGameEventHandler) :=
  C7_history_home_end_exit 5 2 KeySym.v rfl (by decide) (by decide)

/-- C8: a pointer-motion event stores the reported tile as the engine's
mouse location exactly when `game_map.in_bounds` accepts it; an
out-of-bounds motion returns the engine unchanged; and pointer motion
yields no Action, so the resolver sees `none`, produces no effect, and no
turn elapses. -/
theorem C8_mousemotion (e : Engine) (x y : Int)
    (perform : Action → PerformResult) :
    (e.game_map.in_bounds x y = true →
      EventHandler.ev_mousemotion e x y = { e with mouse_location := (x, y) }) ∧
    (e.game_map.in_bounds x y = false →
      EventHandler.ev_mousemotion e x y = e) ∧
    EventHandler.handle_action none perform = (false, []) := by
  refine ⟨?_, ?_, rfl⟩
  · intro h
    simp [EventHandler.ev_mousemotion, h]
  · intro h
    simp [EventHandler.ev_mousemotion, h]

theorem C8_mousemotion_witness :
    EventHandler.ev_mousemotion sampleEngine1 1 2 =
      { sampleEngine1 with mouse_location := (1, 2) } ∧
    EventHandler.ev_mousemotion sampleEngine1 (-1) 0 = sampleEngine1 :=
  ⟨(C8_mousemotion sampleEngine1 1 2 (fun _ => PerformResult.success)).1 rfl,
   (C8_mousemotion sampleEngine1 (-1) 0 (fun _ => PerformResult.success)).2.1 rfl⟩

/-- C10: activating HistoryReview on an empty message log snapshots
`log_length = 0` and `cursor = -1`; the rendered slice
`messages[: cursor + 1]` is then empty, and after any sequence of key
presses kept inside the mode the slice rendered at the reached cursor is
still empty — the view shows no message for as long as the mode is active. -/
theorem C10_empty_log (e : Engine) (keys : List KeySym) (ll c : Int)
    (hempty : e.messages = [])
    (hrun : HistoryViewer.runKeys (HistoryViewer.make e) keys =
      EventHandlerState.HistoryViewer ll c) :
    HistoryViewer.make e = EventHandlerState.HistoryViewer 0 (-1) ∧
    HistoryViewer.renderedMessages e.messages (-1) = [] ∧
    HistoryViewer.renderedMessages e.messages c = [] := by
  refine ⟨?_, ?_, ?_⟩
  · simp [HistoryViewer.make, hempty]
  · simp [HistoryViewer.renderedMessages, pySliceTo, hempty]
  · simp [HistoryViewer.renderedMessages, pySliceTo, hempty]

theorem C10_empty_log_witness :
    HistoryViewer.make sampleEngineEmpty = EventHandlerState.HistoryViewer 0 (-1) ∧
    HistoryViewer.renderedMessages sampleEngineEmpty.messages (-1) = [] ∧
    HistoryViewer.renderedMessages sampleEngineEmpty.messages 0 = [] :=
  C10_empty_log sampleEngineEmpty [KeySym.DOWN, KeySym.UP, KeySym.HOME] 0 0
    rfl (by decide)

end Roguelike
